import Mathlib

/-!
Verification of swift/cli/ringbuilder.py (swift-ring-builder CLI).

The CLI file is the source of truth for everything below; the underlying
`RingBuilder` engine (swift/common/ring/builder.py) is not part of the
sources, so its operations appear either as universally quantified result
values consumed by the CLI control flow, or as definitions explicitly
marked `Modelled from the spec:`.

Python floats are embedded as rationals (`Rat`); device dictionaries as a
structure; the builder's device list (with `None` tombstone slots) as
`List (Option Device)`.
-/

/-- Exit codes, ringbuilder.py lines 36-38. -/
def EXIT_SUCCESS : Nat := 0

/-- Exit code for operations completed with warnings. -/
def EXIT_WARNING : Nat := 1

/-- Exit code for hard failures. -/
def EXIT_ERROR : Nat := 2

/-- One device row of the ring builder, as displayed and edited by the CLI.
Tombstoned (removed) slots are `none` entries of the builder's device list. -/
structure Device where
  id : Nat
  region : Nat
  zone : Nat
  ip : String
  port : Nat
  replication_ip : String
  replication_port : Nat
  device : String
  weight : Rat
  meta : String
  parts : Nat
  parts_wanted : Int
deriving DecidableEq, Repr

/-- The builder's device list, indexed by id, with `None` tombstones. -/
abbrev Devs := List (Option Device)

/-- The builder fields the CLI commands under verification read. -/
structure Builder where
  parts : Nat
  replicas : Rat
  min_part_hours : Nat
  devs_changed : Bool
  devs : Devs
deriving DecidableEq, Repr

/-- How a command invocation terminates: `exit(n)` with a numeric status, or
an uncaught Python exception propagating out of the command function. -/
inductive CmdExit where
  | code : Nat → CmdExit
  | uncaught : CmdExit
deriving DecidableEq, Repr

/-- Observable outcome of a builder-mutating command: how it exited, and the
device list written by `builder.save` (`none` when `save` was never reached,
so the on-disk builder file is unchanged). -/
structure CmdOutcome where
  exit : CmdExit
  saved : Option Devs
deriving DecidableEq, Repr

/-! ## Balance reporting (default and search commands, C1) -/

/-- Modelled from the spec: `MAX_BALANCE`, imported by the CLI from
swift/common/ring/builder.py which is not among the sources.  Per the spec it
is a sentinel "maximum imbalance" value distinct from any value reachable by
the balance formula, so a device balance is either a formula value or that
sentinel. -/
inductive DevBalance where
  | value : Rat → DevBalance
  | maxBalance : DevBalance
deriving DecidableEq, Repr

/-- Sum of weights of non-tombstoned devices:
`sum(d['weight'] for d in builder.devs if d is not None)`
(ringbuilder.py lines 261, 299). -/
def sumLiveWeights (devs : Devs) : Rat :=
  ((devs.filterMap id).map Device.weight).sum

/-- Total replica slots divided by total live weight:
`builder.parts * builder.replicas / sum(...)` (lines 260-261, 298-299). -/
def weighted_parts (b : Builder) : Rat :=
  (b.parts : Rat) * b.replicas / sumLiveWeights b.devs

/-- Per-device balance as computed identically by the default command
(lines 265-272) and the search command (lines 301-308): zero-weight devices
report the sentinel when they still hold parts and 0 otherwise; all others
report `100.0 * parts / (weight * weighted_parts) - 100.0`. -/
def dev_balance (wp : Rat) (dev : Device) : DevBalance :=
  if dev.weight = 0 then
    if dev.parts ≠ 0 then DevBalance.maxBalance else DevBalance.value 0
  else
    DevBalance.value (100 * (dev.parts : Rat) / (dev.weight * wp) - 100)

/-- The (device, balance) rows printed by the default command: one row per
non-tombstoned device (lines 262-278). -/
def defaultBalances (b : Builder) : List (Device × DevBalance) :=
  (b.devs.filterMap id).map (fun d => (d, dev_balance (weighted_parts b) d))

/-- The (device, balance) rows printed by the search command for the devices
matched by `builder.search_devs` (lines 300-314); `weighted_parts` is still
computed over all live devices of the builder. -/
def searchBalances (b : Builder) (matched : List Device) :
    List (Device × DevBalance) :=
  matched.map (fun d => (d, dev_balance (weighted_parts b) d))

/-! ## Rebalance command control flow (C2, C3, C9)

`builder.get_balance()`, `builder.rebalance(seed)` and `builder.validate()`
live in the engine module that is not among the sources; the CLI flow
(lines 605-672) is modelled as a function of their results.  Balances here
are the raw floats the CLI compares, embedded as rationals, and the numeric
value of the engine's `MAX_BALANCE` constant is a parameter `maxBal`. -/

/-- Inputs the rebalance command (lines 617-620, 644-645) obtains from the
engine: the dirty flag read before rebalancing, the prior balance, the
result of `builder.rebalance` (`RingBuilderError` or (parts moved, new
balance)), and the result of `builder.validate` (`RingValidationError` or
success). -/
structure RebalanceEnv where
  devs_changed : Bool
  last_balance : Rat
  rebalance_result : Except Unit (Nat × Rat)
  validate_result : Except Unit Unit

/-- Outcome of the rebalance command: numeric exit status, and whether the
ring file and the builder file were written (lines 666-672). -/
structure RebalanceOutcome where
  exitCode : Nat
  ringSaved : Bool
  builderSaved : Bool
deriving DecidableEq, Repr

/-- The guard of lines 639-640: refuse to save when the topology is
unchanged, the balance moved by less than 1, and the two balances are not
both the `MAX_BALANCE` sentinel. -/
def cowardly (maxBal : Rat) (devs_changed : Bool) (last bal : Rat) : Bool :=
  !devs_changed && decide (|last - bal| < 1) &&
    !(decide (last = maxBal) && decide (bal = maxBal))

/-- Control flow of the rebalance command (lines 605-672): engine error →
exit 2; zero parts moved → warning exit without saving; cowardly guard →
warning exit without saving; validation error → exit 2 without saving;
otherwise both files are written and the status is a warning iff the new
balance exceeds 5. -/
def rebalanceCmd (maxBal : Rat) (env : RebalanceEnv) : RebalanceOutcome :=
  match env.rebalance_result with
  | .error _ => ⟨EXIT_ERROR, false, false⟩
  | .ok (parts, balance) =>
    if parts = 0 then ⟨EXIT_WARNING, false, false⟩
    else if cowardly maxBal env.devs_changed env.last_balance balance then
      ⟨EXIT_WARNING, false, false⟩
    else
      match env.validate_result with
      | .error _ => ⟨EXIT_ERROR, false, false⟩
      | .ok _ =>
        ⟨if decide (5 < balance) then EXIT_WARNING else EXIT_SUCCESS,
          true, true⟩

/-! ## Theorems for C1, C2, C3, C9 -/

/-- C1: every live device displayed by the default and search commands
reports balance `100 * parts / (weight * weighted_parts) - 100` with
`weighted_parts = partition_count * replicas / (sum of live weights)`;
a zero-weight device with parts reports the `MAX_BALANCE` sentinel, which is
distinct from every formula value, and a zero-weight device without parts
reports balance 0. -/
theorem spec_c1 (b : Builder) (dev : Device) (hmem : some dev ∈ b.devs) :
    (dev, dev_balance (weighted_parts b) dev) ∈ defaultBalances b ∧
    (∀ matched : List Device, dev ∈ matched →
      (dev, dev_balance (weighted_parts b) dev) ∈ searchBalances b matched) ∧
    (dev.weight ≠ 0 →
      dev_balance (weighted_parts b) dev =
        DevBalance.value (100 * (dev.parts : Rat) /
          (dev.weight * ((b.parts : Rat) * b.replicas / sumLiveWeights b.devs))
          - 100)) ∧
    (dev.weight = 0 → dev.parts ≠ 0 →
      dev_balance (weighted_parts b) dev = DevBalance.maxBalance ∧
      ∀ q : Rat, DevBalance.maxBalance ≠ DevBalance.value q) ∧
    (dev.weight = 0 → dev.parts = 0 →
      dev_balance (weighted_parts b) dev = DevBalance.value 0) := by
  refine ⟨?_, ?_, ?_, ?_, ?_⟩
  · exact List.mem_map_of_mem _ (List.mem_filterMap.mpr ⟨some dev, hmem, rfl⟩)
  · intro matched hm
    exact List.mem_map_of_mem _ hm
  · intro hw
    simp [dev_balance, hw, weighted_parts]
  · intro hw hp
    refine ⟨by simp [dev_balance, hw, hp], by intro q h; cases h⟩
  · intro hw hp
    simp [dev_balance, hw, hp]

/-- Concrete device used by the C1 witness. -/
def c1dev : Device :=
  ⟨0, 1, 1, "10.0.0.1", 6000, "10.0.0.1", 6000, "sda", 1, "", 2, 0⟩

/-- Concrete one-device builder used by the C1 witness. -/
def c1builder : Builder := ⟨2, 1, 1, false, [some c1dev]⟩

/-- Witness for C1 on a concrete one-device builder holding exactly its fair
share, hence balance 0. -/
theorem spec_c1_witness :
    (c1dev, dev_balance (weighted_parts c1builder) c1dev) ∈
      defaultBalances c1builder ∧
    dev_balance (weighted_parts c1builder) c1dev = DevBalance.value 0 := by
  have h := spec_c1 c1builder c1dev (by simp [c1builder])
  refine ⟨h.1, ?_⟩
  have h3 := h.2.2.1 (by norm_num [c1dev])
  rw [h3]
  norm_num [c1dev, c1builder, sumLiveWeights, List.filterMap, List.map]

/-- C2: the ring file is never published from an assignment that failed
validation: the rebalance command writes the ring (or builder) file only
when `builder.validate()` succeeded, and when validation raises
`RingValidationError` (after a rebalance that moved parts and passed the
cowardly guard) the command exits with code 2 writing neither file. -/
theorem spec_c2 :
    (∀ (maxBal : Rat) (env : RebalanceEnv),
      (rebalanceCmd maxBal env).ringSaved = true ∨
        (rebalanceCmd maxBal env).builderSaved = true →
      env.validate_result = .ok ()) ∧
    (∀ (maxBal : Rat) (env : RebalanceEnv) (p : Nat) (bal : Rat),
      env.rebalance_result = .ok (p, bal) → p ≠ 0 →
      cowardly maxBal env.devs_changed env.last_balance bal = false →
      env.validate_result = .error () →
      rebalanceCmd maxBal env = ⟨EXIT_ERROR, false, false⟩) := by
  constructor
  · intro maxBal env h
    cases hres : env.rebalance_result with
    | error e => simp [rebalanceCmd, hres] at h
    | ok pb =>
      obtain ⟨p, bal⟩ := pb
      by_cases hp : p = 0
      · simp [rebalanceCmd, hres, hp] at h
      · by_cases hc :
          cowardly maxBal env.devs_changed env.last_balance bal = true
        · simp [rebalanceCmd, hres, hp, hc] at h
        · cases hval : env.validate_result with
          | error e => simp [rebalanceCmd, hres, hp, hc, hval] at h
          | ok u => cases u; rfl
  · intro maxBal env p bal hres hp hc hval
    simp only [rebalanceCmd, hres, hval]
    all_goals simp [hp, hc]

/-- Witness for C2 at a concrete environment with a failing validation. -/
theorem spec_c2_witness :
    rebalanceCmd 999 ⟨false, 0, Except.ok (5, 50), Except.error ()⟩ =
      ⟨EXIT_ERROR, false, false⟩ :=
  spec_c2.2 999 ⟨false, 0, Except.ok (5, 50), Except.error ()⟩ 5 50 rfl
    (by decide) (by simp [cowardly]) rfl

/-- C3: a rebalance that moves zero partitions exits with the warning code 1
without writing either file, and that code is distinct from both success (0)
and hard failure (2). -/
theorem spec_c3 (maxBal : Rat) (env : RebalanceEnv) (bal : Rat)
    (hres : env.rebalance_result = .ok (0, bal)) :
    rebalanceCmd maxBal env = ⟨EXIT_WARNING, false, false⟩ ∧
    EXIT_WARNING ≠ EXIT_SUCCESS ∧ EXIT_WARNING ≠ EXIT_ERROR := by
  refine ⟨?_, by decide, by decide⟩
  simp [rebalanceCmd, hres]

/-- Witness for C3 at a concrete environment moving zero partitions. -/
theorem spec_c3_witness :
    rebalanceCmd 999 ⟨true, 7, Except.ok (0, 7), Except.ok ()⟩ =
      ⟨EXIT_WARNING, false, false⟩ :=
  (spec_c3 999 ⟨true, 7, Except.ok (0, 7), Except.ok ()⟩ 7 rfl).1

/-- C9: when the topology is unchanged, the balance moved by less than 1,
and the two balances are not both the `MAX_BALANCE` sentinel, the rebalance
command discards the computed rebalance: it exits with the warning code and
writes neither the builder file nor the ring file. -/
theorem spec_c9 (maxBal : Rat) (env : RebalanceEnv) (p : Nat) (bal : Rat)
    (hres : env.rebalance_result = .ok (p, bal))
    (hdc : env.devs_changed = false)
    (hdiff : |env.last_balance - bal| < 1)
    (hmax : ¬(env.last_balance = maxBal ∧ bal = maxBal)) :
    rebalanceCmd maxBal env = ⟨EXIT_WARNING, false, false⟩ := by
  by_cases hp : p = 0
  · simp [rebalanceCmd, hres, hp]
  · have hcow :
        cowardly maxBal env.devs_changed env.last_balance bal = true := by
      have h1 : decide (|env.last_balance - bal| < 1) = true :=
        decide_eq_true hdiff
      have h2 : (decide (env.last_balance = maxBal) &&
          decide (bal = maxBal)) = false := by
        rcases not_and_or.mp hmax with h | h <;> simp [h]
      simp [cowardly, hdc, h1, h2]
    simp [rebalanceCmd, hres, hp, hcow]

/-- Witness for C9 at a concrete environment with an unchanged topology and
a balance change below 1. -/
theorem spec_c9_witness :
    rebalanceCmd 1000 ⟨false, 0, Except.ok (7, 1/2), Except.ok ()⟩ =
      ⟨EXIT_WARNING, false, false⟩ :=
  spec_c9 1000 ⟨false, 0, Except.ok (7, 1/2), Except.ok ()⟩ 7 (1/2) rfl rfl
    (by norm_num [abs_lt]) (by norm_num)

/-! ## Generic batch processing

Each multi-item CLI command iterates a Python `for` loop whose body either
mutates the builder or terminates the process; `runBatch` is that loop. -/

/-- Run a step function over a list of items, threading state, stopping at
the first step that terminates the process. -/
def runBatch {S I : Type} (step : S → I → Except CmdExit S) :
    S → List I → Except CmdExit S
  | s, [] => .ok s
  | s, it :: rest =>
    match step s it with
    | .error e => .error e
    | .ok s2 => runBatch step s2 rest

theorem runBatch_append {S I : Type} (step : S → I → Except CmdExit S)
    (s : S) (l1 l2 : List I) :
    runBatch step s (l1 ++ l2) =
      match runBatch step s l1 with
      | .error e => .error e
      | .ok s2 => runBatch step s2 l2 := by
  induction l1 generalizing s with
  | nil => simp [runBatch]
  | cons it rest ih =>
    simp only [List.cons_append, runBatch]
    cases hstep : step s it with
    | error e => rfl
    | ok s2 => exact ih s2

theorem runBatch_error_of_mem {S I : Type} (step : S → I → Except CmdExit S)
    (it : I) (hbad : ∀ s, ∃ e, step s it = .error e)
    (items : List I) (hmem : it ∈ items) (s : S) :
    ∃ e, runBatch step s items = .error e := by
  induction items generalizing s with
  | nil => cases hmem
  | cons hd rest ih =>
    rcases List.mem_cons.mp hmem with rfl | hmem2
    · obtain ⟨e, he⟩ := hbad s
      exact ⟨e, by simp [runBatch, he]⟩
    · cases hstep : step s hd with
      | error e => exact ⟨e, by simp [runBatch, hstep]⟩
      | ok s2 =>
        obtain ⟨e, he⟩ := ih hmem2 s2
        exact ⟨e, by simp [runBatch, hstep, he]⟩

/-! ## The add command (C4, C8)

`_parse_add_values` (lines 57-201) scans each device string and its weight
string, exiting with `EXIT_ERROR` on any malformed value, then the add
command (lines 352-393) checks each parsed device against the live devices
for an (ip, port, device) duplicate, adds it via `builder.add_dev`, and only
after the whole batch calls `builder.save`. -/

/-- Fields of a new device as parsed from an add batch entry. -/
structure NewDev where
  region : Nat
  zone : Nat
  ip : String
  port : Nat
  replication_ip : String
  replication_port : Nat
  device : String
  weight : Rat
  meta : String
deriving DecidableEq, Repr

/-- One devstr/weightstr pair of an add batch.  The device-string scanning of
`_parse_add_values` (region, zone, ip, port, replication pair, device name,
meta) is taken as already done; `weightParse` is the result of the Python
builtin `float(weightstr)` (line 177), `none` when it raises `ValueError`. -/
structure AddEntry where
  region : Nat
  zone : Nat
  ip : String
  port : Nat
  replication_ip : String
  replication_port : Nat
  device : String
  meta : String
  weightParse : Option Rat
deriving DecidableEq, Repr

/-- The device dict an add entry produces once its weight parsed (lines
188-192). -/
def entryDev (e : AddEntry) (w : Rat) : NewDev :=
  ⟨e.region, e.zone, e.ip, e.port, e.replication_ip, e.replication_port,
    e.device, w, e.meta⟩

/-- Weight handling of `_parse_add_values` (lines 176-186): a weight string
`float` cannot parse exits with `EXIT_ERROR`, a strictly negative weight
exits with `EXIT_ERROR`, anything else is accepted. -/
def parseAddEntry (e : AddEntry) : Except CmdExit NewDev :=
  match e.weightParse with
  | none => .error (.code EXIT_ERROR)
  | some w =>
    if w < 0 then .error (.code EXIT_ERROR) else .ok (entryDev e w)

/-- The loop of `_parse_add_values` over all entries of the batch: the whole
batch is parsed (first malformed value exits) before any device is added. -/
def parseAddValues : List AddEntry → Except CmdExit (List NewDev)
  | [] => .ok []
  | e :: rest =>
    match parseAddEntry e with
    | .error x => .error x
    | .ok nd =>
      match parseAddValues rest with
      | .error x => .error x
      | .ok nds => .ok (nd :: nds)

/-- Device built by `builder.add_dev` for slot `id` (spec section 4.1):
`parts = 0`, `parts_wanted = 0`. -/
def mkDevice (id : Nat) (nd : NewDev) : Device :=
  ⟨id, nd.region, nd.zone, nd.ip, nd.port, nd.replication_ip,
    nd.replication_port, nd.device, nd.weight, nd.meta, 0, 0⟩

/-- Helper for `add_dev`: put the new device into the lowest tombstone slot,
else append it; `idx` is the id of the current head slot. -/
def addDevGo (nd : NewDev) : Nat → Devs → Devs
  | idx, [] => [some (mkDevice idx nd)]
  | idx, none :: rest => some (mkDevice idx nd) :: rest
  | idx, some d :: rest => some d :: addDevGo nd (idx + 1) rest

/-- Modelled from the spec: `RingBuilder.add_dev`
(swift/common/ring/builder.py, not among the sources) assigns the next
unused id, reusing the lowest-numbered tombstone slot if one exists, and
initializes `parts = 0, parts_wanted = 0` (spec section 4.1). -/
def add_dev (devs : Devs) (nd : NewDev) : Devs :=
  addDevGo nd 0 devs

/-- The duplicate test of the add command (lines 378-387): some
non-tombstoned device has the same (ip, port, device) triple. -/
def hasDup (devs : Devs) (nd : NewDev) : Bool :=
  devs.any (fun od =>
    match od with
    | none => false
    | some d => d.ip == nd.ip && d.port == nd.port && d.device == nd.device)

/-- Body of the add command loop (lines 377-390): exit with `EXIT_ERROR` on
a duplicate, otherwise add the device. -/
def addStep (devs : Devs) (nd : NewDev) : Except CmdExit Devs :=
  if hasDup devs nd then .error (.code EXIT_ERROR)
  else .ok (add_dev devs nd)

/-- The add command (lines 352-393): parse the whole batch, run the
duplicate-check-and-add loop, and only on full success call `builder.save`
(line 392) and exit 0. -/
def addCmd (b : Builder) (entries : List AddEntry) : CmdOutcome :=
  match parseAddValues entries with
  | .error x => ⟨x, none⟩
  | .ok nds =>
    match runBatch addStep b.devs nds with
    | .error x => ⟨x, none⟩
    | .ok devs2 => ⟨.code EXIT_SUCCESS, some devs2⟩

/-- C4: if a device of an add batch duplicates the (ip, port, device_name)
triple of a non-tombstoned device present after the earlier batch entries
were added (so both pre-existing devices and devices added earlier in the
same batch count), the add loop stops with exit code 2 and the command never
reaches `builder.save`, leaving the on-disk builder unchanged. -/
theorem spec_c4 (b : Builder) (pre : List NewDev) (nd : NewDev)
    (post : List NewDev) (devs2 : Devs)
    (hpre : runBatch addStep b.devs pre = .ok devs2)
    (hdup : hasDup devs2 nd = true) :
    runBatch addStep b.devs (pre ++ nd :: post) = .error (.code EXIT_ERROR) ∧
    ∀ entries, parseAddValues entries = .ok (pre ++ nd :: post) →
      addCmd b entries = ⟨.code EXIT_ERROR, none⟩ := by
  have hloop :
      runBatch addStep b.devs (pre ++ nd :: post) =
        .error (.code EXIT_ERROR) := by
    rw [runBatch_append, hpre]
    simp [runBatch, addStep, hdup]
  refine ⟨hloop, ?_⟩
  intro entries hparse
  simp [addCmd, hparse, hloop]

/-- Witness for C4: an add batch whose second entry reuses the triple of the
first entry on an initially empty builder. -/
theorem spec_c4_witness :
    runBatch addStep (Builder.mk 8 3 1 false []).devs
        ([⟨1, 1, "10.0.0.1", 6000, "10.0.0.1", 6000, "sda", 1, ""⟩] ++
          ⟨1, 2, "10.0.0.1", 6000, "10.0.0.1", 6000, "sda", 2, ""⟩ :: []) =
      .error (.code EXIT_ERROR) :=
  (spec_c4 ⟨8, 3, 1, false, []⟩
    [⟨1, 1, "10.0.0.1", 6000, "10.0.0.1", 6000, "sda", 1, ""⟩]
    ⟨1, 2, "10.0.0.1", 6000, "10.0.0.1", 6000, "sda", 2, ""⟩ []
    [some (mkDevice 0 ⟨1, 1, "10.0.0.1", 6000, "10.0.0.1", 6000, "sda", 1, ""⟩)]
    (by simp [runBatch, addStep, hasDup, add_dev, addDevGo])
    (by simp [hasDup, mkDevice])).1

/-- C8: a weight string that `float` cannot parse, or that parses to a
strictly negative weight, anywhere in an add batch, makes the add command
exit with code 2 without calling `builder.save`; a weight of exactly 0 (and
any nonnegative weight) passes the parse boundary and yields the device with
that weight. -/
theorem spec_c8 :
    (∀ (b : Builder) (entries : List AddEntry) (e : AddEntry),
      e ∈ entries →
      (e.weightParse = none ∨ ∃ w, e.weightParse = some w ∧ w < 0) →
      addCmd b entries = ⟨.code EXIT_ERROR, none⟩) ∧
    (∀ (e : AddEntry) (w : Rat), e.weightParse = some w → 0 ≤ w →
      parseAddEntry e = .ok (entryDev e w)) := by
  constructor
  · have hbadparse :
        ∀ (entries : List AddEntry) (e : AddEntry), e ∈ entries →
          (e.weightParse = none ∨ ∃ w, e.weightParse = some w ∧ w < 0) →
          parseAddValues entries = .error (.code EXIT_ERROR) := by
      intro entries
      induction entries with
      | nil => intro e hmem; cases hmem
      | cons hd rest ih =>
        intro e hmem hbad
        rcases List.mem_cons.mp hmem with rfl | hmem2
        · rcases hbad with hn | ⟨w, hw, hneg⟩
          · simp [parseAddValues, parseAddEntry, hn]
          · simp [parseAddValues, parseAddEntry, hw, hneg]
        · cases hwp : hd.weightParse with
          | none => simp [parseAddValues, parseAddEntry, hwp]
          | some w =>
            by_cases hw : w < 0
            · simp [parseAddValues, parseAddEntry, hwp, hw]
            · simp [parseAddValues, parseAddEntry, hwp, hw,
                ih e hmem2 hbad]
    intro b entries e hmem hbad
    simp [addCmd, hbadparse entries e hmem hbad]
  · intro e w hw hnonneg
    simp [parseAddEntry, hw, not_lt.mpr hnonneg]

/-- Witness for C8: a negative weight makes the command fail with the
builder unsaved, and a weight of exactly 0 is accepted at the parse
boundary. -/
theorem spec_c8_witness :
    addCmd ⟨8, 3, 1, false, []⟩
        [⟨1, 1, "10.0.0.1", 6000, "10.0.0.1", 6000, "sda", "", some (-1)⟩] =
      ⟨.code EXIT_ERROR, none⟩ ∧
    parseAddEntry ⟨1, 1, "10.0.0.2", 6000, "10.0.0.2", 6000, "sdb", "",
        some 0⟩ =
      .ok (entryDev
        ⟨1, 1, "10.0.0.2", 6000, "10.0.0.2", 6000, "sdb", "", some 0⟩ 0) :=
  ⟨spec_c8.1 ⟨8, 3, 1, false, []⟩
      [⟨1, 1, "10.0.0.1", 6000, "10.0.0.1", 6000, "sda", "", some (-1)⟩]
      ⟨1, 1, "10.0.0.1", 6000, "10.0.0.1", 6000, "sda", "", some (-1)⟩
      (List.mem_singleton.mpr rfl)
      (Or.inr ⟨-1, rfl, by norm_num⟩),
    spec_c8.2 ⟨1, 1, "10.0.0.2", 6000, "10.0.0.2", 6000, "sdb", "", some 0⟩ 0
      rfl le_rfl⟩

/-! ## The set_weight command (lines 395-433) and the remove command
(lines 553-603)

`builder.search_devs` and `parse_search_value` are external to the CLI file;
a batch item carries the ids of the live devices the search matched, plus
the interactive confirmation answer read by `raw_input` when more than one
device matched. -/

/-- One search-value/weight pair of a set_weight batch: the ids matched by
`builder.search_devs`, the result of the Python builtin `float(weightstr)`
(line 414, `none` when it raises `ValueError`), and the `raw_input`
confirmation. -/
structure SetWeightItem where
  matchedIds : List Nat
  weightParse : Option Rat
  confirm : Bool

/-- Modelled from the spec: `RingBuilder.set_dev_weight` (not among the
sources) updates the weight of the device with the given id (spec
section 4.1). -/
def set_dev_weight (devs : Devs) (id : Nat) (w : Rat) : Devs :=
  devs.map (fun od =>
    match od with
    | some d => if d.id = id then some { d with weight := w } else some d
    | none => none)

/-- Body of the set_weight loop (lines 412-431): `float(weightstr)` raises
out of the command on a malformed weight (line 414), a search matching zero
devices exits with `EXIT_ERROR` (lines 415-419), an unconfirmed multi-match
exits with `EXIT_ERROR` (lines 420-427), else every matched device's weight
is set (lines 428-429). -/
def setWeightStep (devs : Devs) (it : SetWeightItem) : Except CmdExit Devs :=
  match it.weightParse with
  | none => .error .uncaught
  | some w =>
    if it.matchedIds = [] then .error (.code EXIT_ERROR)
    else if 1 < it.matchedIds.length ∧ it.confirm = false then
      .error (.code EXIT_ERROR)
    else .ok (it.matchedIds.foldl (fun ds i => set_dev_weight ds i w) devs)

/-- The set_weight command (lines 395-433): run the batch, then
`builder.save` (line 432) only after every item succeeded. -/
def setWeightCmd (b : Builder) (items : List SetWeightItem) : CmdOutcome :=
  match runBatch setWeightStep b.devs items with
  | .error e => ⟨e, none⟩
  | .ok devs2 => ⟨.code EXIT_SUCCESS, some devs2⟩

/-- One search value of a remove batch: the ids matched by
`builder.search_devs` and the `raw_input` confirmation. -/
structure RemoveItem where
  matchedIds : List Nat
  confirm : Bool

/-- Number of non-tombstoned devices. -/
def liveCount (devs : Devs) : Nat :=
  (devs.filterMap id).length

/-- Modelled from the spec: `RingBuilder.remove_dev` (not among the
sources).  Spec section 4.1: fails with `RingBuilderError` if removing the
device would leave fewer devices than needed to satisfy the replica count
for some partition (e.g. removing the last device); otherwise the device is
marked for removal, its weight driven so it sheds everything
(`parts_wanted = -parts`). -/
def remove_dev (replicas : Rat) (devs : Devs) (id : Nat) : Except Unit Devs :=
  if ((liveCount devs : Nat) : Rat) - 1 < replicas then .error ()
  else
    .ok (devs.map (fun od =>
      match od with
      | some d =>
        if d.id = id then
          some { d with weight := 0, parts_wanted := -(d.parts : Int) }
        else some d
      | none => none))

/-- One `builder.remove_dev` call of the remove loop (lines 583-598):
`RingBuilderError` exits with `EXIT_ERROR`. -/
def removeOne (replicas : Rat) (devs : Devs) (id : Nat) :
    Except CmdExit Devs :=
  match remove_dev replicas devs id with
  | .error _ => .error (.code EXIT_ERROR)
  | .ok devs2 => .ok devs2

/-- Body of the remove loop (lines 569-601): a search matching zero devices
exits with `EXIT_ERROR` (lines 571-574), an unconfirmed multi-match exits
with `EXIT_ERROR` (lines 575-582), else each matched device is removed, a
`RingBuilderError` exiting with `EXIT_ERROR`. -/
def removeStep (replicas : Rat) (devs : Devs) (it : RemoveItem) :
    Except CmdExit Devs :=
  if it.matchedIds = [] then .error (.code EXIT_ERROR)
  else if 1 < it.matchedIds.length ∧ it.confirm = false then
    .error (.code EXIT_ERROR)
  else runBatch (removeOne replicas) devs it.matchedIds

/-- The remove command (lines 553-603): run the batch, then `builder.save`
(line 602) only after every item succeeded. -/
def removeCmd (b : Builder) (items : List RemoveItem) : CmdOutcome :=
  match runBatch (removeStep b.replicas) b.devs items with
  | .error e => ⟨e, none⟩
  | .ok devs2 => ⟨.code EXIT_SUCCESS, some devs2⟩

/-- C6: when `builder.remove_dev` raises `RingBuilderError` for a matched
device (for instance removing the last device of a ring), the remove
command aborts with exit code 2 and never reaches `builder.save`, so the
on-disk builder file is unchanged. -/
theorem spec_c6 (b : Builder) (preItems : List RemoveItem) (it : RemoveItem)
    (postItems : List RemoveItem) (D : Devs)
    (hpre : runBatch (removeStep b.replicas) b.devs preItems = .ok D)
    (preIds postIds : List Nat) (id : Nat)
    (hids : it.matchedIds = preIds ++ id :: postIds)
    (hconfirm : it.matchedIds.length ≤ 1 ∨ it.confirm = true)
    (D2 : Devs)
    (hpreIds : runBatch (removeOne b.replicas) D preIds = .ok D2)
    (herr : remove_dev b.replicas D2 id = .error ()) :
    removeCmd b (preItems ++ it :: postItems) = ⟨.code EXIT_ERROR, none⟩ := by
  have hne : ¬(it.matchedIds = []) := by simp [hids]
  have hcf : ¬(1 < it.matchedIds.length ∧ it.confirm = false) := by
    rintro ⟨hlen, hcon⟩
    rcases hconfirm with h | h
    · omega
    · rw [h] at hcon; cases hcon
  have hstep : removeStep b.replicas D it = .error (.code EXIT_ERROR) := by
    unfold removeStep
    rw [if_neg hne, if_neg hcf, hids, runBatch_append, hpreIds]
    simp [runBatch, removeOne, herr]
  have hloop :
      runBatch (removeStep b.replicas) b.devs (preItems ++ it :: postItems) =
        .error (.code EXIT_ERROR) := by
    rw [runBatch_append, hpre]
    simp [runBatch, hstep]
  simp [removeCmd, hloop]

/-- Witness for C6: removing the only device of a three-replica ring. -/
theorem spec_c6_witness :
    removeCmd
        ⟨256, 3, 1, false,
          [some ⟨0, 1, 1, "10.0.0.1", 6000, "10.0.0.1", 6000, "sda", 1, "",
            0, 0⟩]⟩
        [⟨[0], true⟩] =
      ⟨.code EXIT_ERROR, none⟩ :=
  spec_c6
    ⟨256, 3, 1, false,
      [some ⟨0, 1, 1, "10.0.0.1", 6000, "10.0.0.1", 6000, "sda", 1, "",
        0, 0⟩]⟩
    [] ⟨[0], true⟩ [] _ rfl [] [] 0 rfl (Or.inl (by decide)) _ rfl
    (by norm_num [remove_dev, liveCount, List.filterMap])

/-! ## The set_info command (lines 435-551)

The change-value scanner (lines 462-517) is part of the CLI file and is
embedded below over `List Char`.  A malformed change value raises
`ValueError` (line 516), and `int` on an empty digit run (a lone `:` with no
digits, lines 481 and 504) also raises; both leave the command through an
uncaught exception. -/

/-- Characters of a bare ip run: `'0123456789.'` (lines 466, 488). -/
def ipChar (c : Char) : Bool := c.isDigit || c == '.'

/-- Python `str.lstrip` with a single strip character. -/
def pyLstrip (c : Char) (cs : List Char) : List Char :=
  cs.dropWhile (· == c)

/-- Python `str.rstrip` with a single strip character. -/
def pyRstrip (c : Char) (cs : List Char) : List Char :=
  (cs.reverse.dropWhile (· == c)).reverse

/-- Python `int` on a nonempty digit string. -/
def digitsToNat (ds : List Char) : Nat :=
  ds.foldl (fun n c => 10 * n + (c.toNat - 48)) 0

/-- One (key, value) pair appended to the `change` list by the scanner. -/
inductive ChangeItem where
  | ip : String → ChangeItem
  | port : Nat → ChangeItem
  | replication_ip : String → ChangeItem
  | replication_port : Nat → ChangeItem
  | device : String → ChangeItem
  | meta : String → ChangeItem
deriving DecidableEq, Repr

/-- The ip-shaped prefix scanner used for `ip` (lines 463-476) and
`replication_ip` (lines 485-499): a leading digit starts a run of
`'0123456789.'`, a leading `[` scans up to and including the first `]` and
strips the brackets; returns the scanned value and the remaining characters,
or `none` when the text starts with neither. -/
def parseIpPart (cs : List Char) : Option (List Char × List Char) :=
  match cs with
  | [] => none
  | c :: rest =>
    if c.isDigit then
      some (c :: rest.takeWhile ipChar, rest.dropWhile ipChar)
    else if c == '[' then
      match rest.dropWhile (· ≠ ']') with
      | [] => some (pyRstrip ']' (pyLstrip '[' (c :: rest.takeWhile (· ≠ ']'))), [])
      | b :: after2 =>
        some (pyRstrip ']' (pyLstrip '['
          (c :: rest.takeWhile (· ≠ ']') ++ [b])), after2)
    else none

/-- The port scanner used for `port` (lines 477-482) and `replication_port`
(lines 500-505): a leading `:` scans a digit run and converts it with `int`,
which raises on an empty run. -/
def parsePort (cs : List Char) : Except CmdExit (Option Nat × List Char) :=
  match cs with
  | ':' :: rest =>
    if (rest.takeWhile Char.isDigit).isEmpty then .error .uncaught
    else
      .ok (some (digitsToNat (rest.takeWhile Char.isDigit)),
        rest.dropWhile Char.isDigit)
  | _ => .ok (none, cs)

/-- The `R` section of the scanner (lines 483-505): consume the `R`, then an
optional replication ip and an optional replication port. -/
def parseRSection (cs : List Char) :
    Except CmdExit (List ChangeItem × List Char) :=
  match cs with
  | 'R' :: rest =>
    match parseIpPart rest with
    | some (v, cs1) =>
      match parsePort cs1 with
      | .error e => .error e
      | .ok (some p, cs2) =>
        .ok ([ChangeItem.replication_ip (String.mk v),
          ChangeItem.replication_port p], cs2)
      | .ok (none, cs2) => .ok ([ChangeItem.replication_ip (String.mk v)], cs2)
    | none =>
      match parsePort rest with
      | .error e => .error e
      | .ok (some p, cs2) => .ok ([ChangeItem.replication_port p], cs2)
      | .ok (none, cs2) => .ok ([], cs2)
  | _ => .ok ([], cs)

/-- The device-name and meta sections of the scanner (lines 506-514):
a leading `/` scans the device name up to `_`, a leading `_` takes the whole
remainder as meta and empties the text. -/
def parseDeviceMeta (cs : List Char) : List ChangeItem × List Char :=
  let step1 : List ChangeItem × List Char :=
    match cs with
    | '/' :: rest =>
      ([ChangeItem.device (String.mk (rest.takeWhile (· ≠ '_')))],
        rest.dropWhile (· ≠ '_'))
    | _ => ([], cs)
  match step1.2 with
  | '_' :: rest => (step1.1 ++ [ChangeItem.meta (String.mk rest)], [])
  | _ => (step1.1, step1.2)

/-- The whole change-value scanner (lines 462-517): ip, port, `R` section,
device, meta, then `if change_value or not change: raise ValueError`
(lines 515-517). -/
def parseChange (cs0 : List Char) : Except CmdExit (List ChangeItem) :=
  let ipStep : List ChangeItem × List Char :=
    match parseIpPart cs0 with
    | some (v, rest) => ([ChangeItem.ip (String.mk v)], rest)
    | none => ([], cs0)
  match parsePort ipStep.2 with
  | .error e => .error e
  | .ok (portOpt, cs2) =>
    let items2 : List ChangeItem :=
      match portOpt with
      | some p => ipStep.1 ++ [ChangeItem.port p]
      | none => ipStep.1
    match parseRSection cs2 with
    | .error e => .error e
    | .ok (ritems, cs3) =>
      match parseDeviceMeta cs3 with
      | (dmItems, cs4) =>
        let change := items2 ++ ritems ++ dmItems
        if cs4 = [] ∧ change ≠ [] then .ok change
        else .error .uncaught

/-- Apply one scanned (key, value) pair to a device dict
(`test_dev[key] = value`, lines 534-535). -/
def applyChangeItem (d : Device) : ChangeItem → Device
  | .ip s => { d with ip := s }
  | .port p => { d with port := p }
  | .replication_ip s => { d with replication_ip := s }
  | .replication_port p => { d with replication_port := p }
  | .device s => { d with device := s }
  | .meta s => { d with meta := s }

/-- Apply the whole change list to a device dict, in order. -/
def applyChange (d : Device) (change : List ChangeItem) : Device :=
  change.foldl applyChangeItem d

/-- The collision scan of lines 536-545: some non-tombstoned device with a
different id has the same (ip, port, device) triple as the updated device. -/
def collides (devs : Devs) (test_dev : Device) : Bool :=
  devs.any (fun od =>
    match od with
    | none => false
    | some cd =>
      !(cd.id == test_dev.id) && (cd.ip == test_dev.ip &&
        (cd.port == test_dev.port && cd.device == test_dev.device)))

/-- Find the non-tombstoned device with the given id. -/
def lookupDev (devs : Devs) (id : Nat) : Option Device :=
  devs.findSome? (fun od =>
    match od with
    | some d => if d.id = id then some d else none
    | none => none)

/-- Replace the device with the given id. -/
def updateDev (devs : Devs) (id : Nat) (newd : Device) : Devs :=
  devs.map (fun od =>
    match od with
    | some d => if d.id = id then some newd else some d
    | none => none)

/-- One matched device of a set_info item (lines 531-549): build the updated
dict, exit with `EXIT_ERROR` if it collides with another live device, else
commit the field changes to the device. -/
def setInfoOne (change : List ChangeItem) (devs : Devs) (id : Nat) :
    Except CmdExit Devs :=
  match lookupDev devs id with
  | none => .ok devs
  | some dev =>
    if collides devs (applyChange dev change) then .error (.code EXIT_ERROR)
    else .ok (updateDev devs id (applyChange dev change))

/-- One search-value/change-value pair of a set_info batch: the ids matched
by `builder.search_devs`, the raw change value, and the `raw_input`
confirmation. -/
structure SetInfoItem where
  searchMatches : List Nat
  changeStr : List Char
  confirm : Bool

/-- Body of the set_info loop (lines 460-549): scan the change value (its
`ValueError` propagating out), exit with `EXIT_ERROR` on a search matching
zero devices (lines 518-522) or an unconfirmed multi-match (lines 523-530),
else update every matched device with the collision check. -/
def setInfoStep (devs : Devs) (it : SetInfoItem) : Except CmdExit Devs :=
  match parseChange it.changeStr with
  | .error e => .error e
  | .ok change =>
    if it.searchMatches = [] then .error (.code EXIT_ERROR)
    else if 1 < it.searchMatches.length ∧ it.confirm = false then
      .error (.code EXIT_ERROR)
    else runBatch (setInfoOne change) devs it.searchMatches

/-- The set_info command (lines 435-551): run the batch, then `builder.save`
(line 550) only after every item succeeded. -/
def setInfoCmd (b : Builder) (items : List SetInfoItem) : CmdOutcome :=
  match runBatch setInfoStep b.devs items with
  | .error e => ⟨e, none⟩
  | .ok devs2 => ⟨.code EXIT_SUCCESS, some devs2⟩

/-- C7: when applying the scanned field changes to a matched device would
give it the (ip, port, device_name) triple of another live device with a
different id, the set_info command exits with code 2 from inside the
collision check, before committing the change, and never reaches
`builder.save`. -/
theorem spec_c7 (b : Builder) (preItems : List SetInfoItem) (it : SetInfoItem)
    (postItems : List SetInfoItem) (D : Devs)
    (hpre : runBatch setInfoStep b.devs preItems = .ok D)
    (change : List ChangeItem)
    (hparse : parseChange it.changeStr = .ok change)
    (preIds postIds : List Nat) (id : Nat)
    (hids : it.searchMatches = preIds ++ id :: postIds)
    (hconfirm : it.searchMatches.length ≤ 1 ∨ it.confirm = true)
    (D2 : Devs)
    (hpreIds : runBatch (setInfoOne change) D preIds = .ok D2)
    (dev : Device) (hdev : lookupDev D2 id = some dev)
    (hcol : collides D2 (applyChange dev change) = true) :
    setInfoCmd b (preItems ++ it :: postItems) = ⟨.code EXIT_ERROR, none⟩ := by
  have hne : ¬(it.searchMatches = []) := by simp [hids]
  have hcf : ¬(1 < it.searchMatches.length ∧ it.confirm = false) := by
    rintro ⟨hlen, hcon⟩
    rcases hconfirm with h | h
    · omega
    · rw [h] at hcon; cases hcon
  have hred : setInfoStep D it =
      (if it.searchMatches = [] then .error (.code EXIT_ERROR)
       else if 1 < it.searchMatches.length ∧ it.confirm = false then
         .error (.code EXIT_ERROR)
       else runBatch (setInfoOne change) D it.searchMatches) := by
    unfold setInfoStep
    rw [hparse]
  have hstep : setInfoStep D it = .error (.code EXIT_ERROR) := by
    rw [hred, if_neg hne, if_neg hcf, hids, runBatch_append, hpreIds]
    simp [runBatch, setInfoOne, hdev, hcol]
  have hloop :
      runBatch setInfoStep b.devs (preItems ++ it :: postItems) =
        .error (.code EXIT_ERROR) := by
    rw [runBatch_append, hpre]
    simp [runBatch, hstep]
  simp [setInfoCmd, hloop]

/-- Witness for C7: editing device 1 of a two-device builder so that it
takes device 0's (ip, port, device_name) triple. -/
theorem spec_c7_witness :
    setInfoCmd
        ⟨256, 3, 1, false,
          [some ⟨0, 1, 1, "1.1.1.1", 6000, "1.1.1.1", 6000, "sda", 1, "",
            0, 0⟩,
           some ⟨1, 1, 1, "2.2.2.2", 6000, "2.2.2.2", 6000, "sdb", 1, "",
            0, 0⟩]⟩
        [⟨[1], "1.1.1.1:6000/sda".toList, true⟩] =
      ⟨.code EXIT_ERROR, none⟩ :=
  spec_c7
    ⟨256, 3, 1, false,
      [some ⟨0, 1, 1, "1.1.1.1", 6000, "1.1.1.1", 6000, "sda", 1, "", 0, 0⟩,
       some ⟨1, 1, 1, "2.2.2.2", 6000, "2.2.2.2", 6000, "sdb", 1, "", 0, 0⟩]⟩
    [] ⟨[1], "1.1.1.1:6000/sda".toList, true⟩ [] _ rfl
    [ChangeItem.ip "1.1.1.1", ChangeItem.port 6000, ChangeItem.device "sda"]
    (by rfl) [] [] 1 rfl (Or.inl (by decide)) _ rfl
    ⟨1, 1, 1, "2.2.2.2", 6000, "2.2.2.2", 6000, "sdb", 1, "", 0, 0⟩
    (by rfl) (by rfl)

/-- C5: in each of the multi-device edit commands — set_weight, set_info and
remove — a malformed input value (a weight `float` cannot parse, a change
value the scanner rejects) or a search value matching zero devices anywhere
in the batch makes the command terminate before `builder.save` is ever
called, so the on-disk builder is exactly as it was before the batch. -/
theorem spec_c5 :
    (∀ (b : Builder) (items : List SetWeightItem) (it : SetWeightItem),
      it ∈ items → (it.weightParse = none ∨ it.matchedIds = []) →
      (setWeightCmd b items).saved = none) ∧
    (∀ (b : Builder) (items : List SetInfoItem) (it : SetInfoItem),
      it ∈ items →
      ((∃ e, parseChange it.changeStr = .error e) ∨ it.searchMatches = []) →
      (setInfoCmd b items).saved = none) ∧
    (∀ (b : Builder) (items : List RemoveItem) (it : RemoveItem),
      it ∈ items → it.matchedIds = [] →
      (removeCmd b items).saved = none) := by
  refine ⟨?_, ?_, ?_⟩
  · intro b items it hmem hbad
    have hstep : ∀ s, ∃ e, setWeightStep s it = .error e := by
      intro s
      rcases hbad with hn | hm
      · exact ⟨.uncaught, by simp [setWeightStep, hn]⟩
      · cases hwp : it.weightParse with
        | none => exact ⟨.uncaught, by simp [setWeightStep, hwp]⟩
        | some w => exact ⟨.code EXIT_ERROR, by simp [setWeightStep, hwp, hm]⟩
    obtain ⟨e, he⟩ := runBatch_error_of_mem setWeightStep it hstep items hmem
      b.devs
    simp [setWeightCmd, he]
  · intro b items it hmem hbad
    have hstep : ∀ s, ∃ e, setInfoStep s it = .error e := by
      intro s
      cases hp : parseChange it.changeStr with
      | error e => exact ⟨e, by simp [setInfoStep, hp]⟩
      | ok change =>
        rcases hbad with ⟨e, he⟩ | hm
        · rw [hp] at he; cases he
        · exact ⟨.code EXIT_ERROR, by simp [setInfoStep, hp, hm]⟩
    obtain ⟨e, he⟩ := runBatch_error_of_mem setInfoStep it hstep items hmem
      b.devs
    simp [setInfoCmd, he]
  · intro b items it hmem hm
    have hstep : ∀ s, ∃ e, removeStep b.replicas s it = .error e := by
      intro s
      exact ⟨.code EXIT_ERROR, by simp [removeStep, hm]⟩
    obtain ⟨e, he⟩ := runBatch_error_of_mem (removeStep b.replicas) it hstep
      items hmem b.devs
    simp [removeCmd, he]

/-- Witness for C5: a zero-match set_weight item, a zero-match set_info
item, and a zero-match remove item each leave the builder unsaved. -/
theorem spec_c5_witness :
    (setWeightCmd ⟨256, 3, 1, false, []⟩ [⟨[], some 1, true⟩]).saved = none ∧
    (setInfoCmd ⟨256, 3, 1, false, []⟩
      [⟨[], "_newmeta".toList, true⟩]).saved = none ∧
    (removeCmd ⟨256, 3, 1, false, []⟩ [⟨[], true⟩]).saved = none :=
  ⟨spec_c5.1 ⟨256, 3, 1, false, []⟩ [⟨[], some 1, true⟩] ⟨[], some 1, true⟩
      (List.mem_singleton.mpr rfl) (Or.inr rfl),
    spec_c5.2.1 ⟨256, 3, 1, false, []⟩ [⟨[], "_newmeta".toList, true⟩]
      ⟨[], "_newmeta".toList, true⟩ (List.mem_singleton.mpr rfl)
      (Or.inr rfl),
    spec_c5.2.2 ⟨256, 3, 1, false, []⟩ [⟨[], true⟩] ⟨[], true⟩
      (List.mem_singleton.mpr rfl) rfl⟩

/-! ## The set_replicas command (lines 770-800, C10) -/

/-- Outcome of the set_replicas command: exit status, whether the builder
file was saved, and the value handed to `builder.set_replicas` (`none` when
it was never called). -/
structure SetReplicasOutcome where
  exitCode : Nat
  builderSaved : Bool
  passedToBuilder : Option Rat
deriving DecidableEq, Repr

/-- The set_replicas command (lines 784-800) as a function of the result of
the Python builtin `float(argv[3])` (`none` when it raises `ValueError`,
line 786): an unparseable value exits with `EXIT_ERROR` (lines 787-790), a
value below 1 exits with `EXIT_ERROR` (lines 792-794), anything else is
handed to `builder.set_replicas` and saved (lines 796-800). -/
def setReplicasCmd (replicasParse : Option Rat) : SetReplicasOutcome :=
  match replicasParse with
  | none => ⟨EXIT_ERROR, false, none⟩
  | some r =>
    if r < 1 then ⟨EXIT_ERROR, false, none⟩
    else ⟨EXIT_SUCCESS, true, some r⟩

/-- C10: set_replicas rejects a non-numeric value and every replica count
below 1 with exit code 2 before `builder.set_replicas` is called and without
saving; every value of at least 1, fractional values included, is passed to
the builder and the builder is saved with exit code 0. -/
theorem spec_c10 :
    setReplicasCmd none = ⟨EXIT_ERROR, false, none⟩ ∧
    (∀ r : Rat, r < 1 → setReplicasCmd (some r) = ⟨EXIT_ERROR, false, none⟩) ∧
    (∀ r : Rat, 1 ≤ r →
      setReplicasCmd (some r) = ⟨EXIT_SUCCESS, true, some r⟩) := by
  refine ⟨rfl, ?_, ?_⟩
  · intro r hr
    simp [setReplicasCmd, hr]
  · intro r hr
    simp [setReplicasCmd, not_lt.mpr hr]

/-- Witness for C10: the fractional replica count 7/2 is accepted and
passed through, and 1/2 is rejected without a save. -/
theorem spec_c10_witness :
    setReplicasCmd (some (7/2)) = ⟨EXIT_SUCCESS, true, some (7/2)⟩ ∧
    setReplicasCmd (some (1/2)) = ⟨EXIT_ERROR, false, none⟩ :=
  ⟨spec_c10.2.2 (7/2) (by norm_num),
    spec_c10.2.1 (1/2) (by norm_num)⟩
